import Mathlib

/-!
# Verification of the Rust-ML repository's numeric training engines

This file shallowly embeds the five model engines of the repository
(`src/src/main.rs` — logistic regression, `src/Logreg/src/main.rs` — feedforward
network, `src/RNN/src/main.rs` — vanilla RNN, `src/RNN/GRU/src/main.rs` — GRU,
`src/RNN/LSTM/src/main.rs` — LSTM) and settles the spec claims about them.

Modelling conventions:
* `f64` values are modelled as rationals `ℚ`; `Vec<f64>` / `Array1<f64>` as
  `List ℚ`, `Array2<f64>` as `List (List ℚ)` (row-major), `Array3<f64>` as
  `List (List (List ℚ))`.
* The transcendental primitives `f64::exp` and `f64::tanh` are not exactly
  representable over `ℚ`; every definition that uses them takes them as
  abstract function parameters `e th : ℚ → ℚ`.  This keeps the *computation
  structure* of the source faithful (which linear combination is formed, which
  branch is taken) without pretending to model floating point rounding.
* `f64::sqrt` (used only by `make_dataset`'s z-score) is modelled by the exact
  rational square root `ratSqrt`, which agrees with the mathematical square
  root whenever the argument is a perfect rational square; concrete inputs in
  theorems are chosen so that this is the case.
* A Rust `panic!` / `.unwrap()` on `None` is modelled by returning `none` from
  an `Option`-valued function.
-/

/-! ## List-matrix substrate (model of the `ndarray` operations the code uses) -/

/-- A dense vector of rationals, modelling `Array1<f64>`. -/
abbrev Vecq := List ℚ

/-- A dense row-major matrix of rationals, modelling `Array2<f64>`. -/
abbrev Matq := List (List ℚ)

/-- Dot product of two vectors (`ndarray` 1-d `dot`). -/
def dotv (u v : Vecq) : ℚ := (List.zipWith (· * ·) u v).sum

/-- Number of columns of a row-major matrix (`ncols`). -/
def ncols (A : Matq) : ℕ := (A.headD []).length

/-- Matrix transpose (`ndarray`'s `.t()`), as the list of columns. -/
def transposeM (A : Matq) : Matq :=
  (List.range (ncols A)).map (fun j => A.map (fun r => r.getD j 0))

/-- Matrix–matrix product (`ndarray`'s `.dot()`): row i of the result is the
vector of dot products of row i of `A` with the columns of `B`. -/
def matMul (A B : Matq) : Matq :=
  A.map (fun row => (transposeM B).map (fun col => dotv row col))

/-- Matrix–vector product (`Array2.dot(&Array1)`). -/
def matVec (A : Matq) (v : Vecq) : Vecq := A.map (fun row => dotv row v)

/-- Elementwise map over a matrix (`mapv` / `map`). -/
def matMap (f : ℚ → ℚ) (A : Matq) : Matq := A.map (List.map f)

/-- Elementwise sum of two matrices. -/
def matAdd (A B : Matq) : Matq := List.zipWith (List.zipWith (· + ·)) A B

/-- Elementwise difference of two matrices. -/
def matSub (A B : Matq) : Matq := List.zipWith (List.zipWith (· - ·)) A B

/-- Elementwise (Hadamard) product of two matrices. -/
def matHad (A B : Matq) : Matq := List.zipWith (List.zipWith (· * ·)) A B

/-- Multiply every entry of a matrix by a scalar on the right (`&A * c`). -/
def matScale (A : Matq) (c : ℚ) : Matq := matMap (· * c) A

/-- Add a row vector to every row of a matrix (`ndarray` broadcasting of a
bias `Array1` against an `Array2`, as in `+ &b.view().insert_axis(Axis(0))`). -/
def addRowVec (A : Matq) (b : Vecq) : Matq :=
  A.map (fun row => List.zipWith (· + ·) row b)

/-- Sum of all entries of a matrix (`sum()`). -/
def matSum (A : Matq) : ℚ := (A.map List.sum).sum

/-- Column-wise mean (`mean_axis(Axis(0))`): each column's sum divided by the
number of rows. -/
def meanAxis0 (A : Matq) : Vecq :=
  (transposeM A).map (fun col => col.sum / (A.length : ℚ))

/-- Vector sum of two vectors. -/
def vecAdd (u v : Vecq) : Vecq := List.zipWith (· + ·) u v

/-- Vector difference. -/
def vecSub (u v : Vecq) : Vecq := List.zipWith (· - ·) u v

/-- Multiply every entry of a vector by a scalar on the right. -/
def vecScale (u : Vecq) (c : ℚ) : Vecq := u.map (· * c)

/-- Add a scalar to every entry of a vector (`&z + bias` broadcasting). -/
def vecAddScalar (u : Vecq) (c : ℚ) : Vecq := u.map (· + c)

/-- Add a scalar to every entry of a matrix (`&z2 + b2` broadcasting). -/
def matAddScalar (A : Matq) (c : ℚ) : Matq := matMap (· + c) A

/-- A zero matrix with `r` rows and `c` columns (`Array2::zeros`). -/
def zerosM (r c : ℕ) : Matq := List.replicate r (List.replicate c 0)

/-- View a vector as a single-column matrix (`into_shape((n,1))` /
`insert_axis(Axis(1))`). -/
def asCol (v : Vecq) : Matq := v.map (fun x => [x])

/-- Column 0 of a matrix as a vector (`.column(0)`). -/
def col0 (A : Matq) : Vecq := A.map (fun row => row.getD 0 0)

/-- Well-formedness: `A` is an `r × c` matrix. -/
def isMat (r c : ℕ) (A : Matq) : Prop :=
  A.length = r ∧ ∀ row ∈ A, row.length = c

instance (r c : ℕ) (A : Matq) : Decidable (isMat r c A) := by
  unfold isMat; infer_instance

/-! ## Activation primitives

Each engine defines its own sigmoid closure; we embed the scalar closure bodies
verbatim, with the float `exp` abstracted as `e`. -/

/-- Scalar sigmoid of `src/src/main.rs` (`LogisticRegression::sigmoid`'s
closure): two-branch numerically stable form. -/
def LogisticRegression.sigmoidScalar (e : ℚ → ℚ) (x : ℚ) : ℚ :=
  if 0 ≤ x then 1 / (1 + e (-x)) else e x / (1 + e x)

/-- Scalar sigmoid of `src/Logreg/src/main.rs` (`NeuralNetwork::sigmoid`'s
closure): two-branch numerically stable form. -/
def NeuralNetwork.sigmoidScalar (e : ℚ → ℚ) (x : ℚ) : ℚ :=
  if 0 ≤ x then 1 / (1 + e (-x)) else e x / (1 + e x)

/-- Scalar sigmoid of `src/RNN/src/main.rs` (`RNN::sigmoid`'s closure):
single-branch form `1/(1+exp(-v))`. -/
def RNN.sigmoidScalar (e : ℚ → ℚ) (v : ℚ) : ℚ := 1 / (1 + e (-v))

/-- Scalar sigmoid of `src/RNN/GRU/src/main.rs` (`GRU::sigmoid`'s closure):
single-branch form `1/(1+exp(-x))`. -/
def GRU.sigmoidScalar (e : ℚ → ℚ) (x : ℚ) : ℚ := 1 / (1 + e (-x))

/-- Scalar sigmoid of `src/RNN/LSTM/src/main.rs` (`LSTM::sigmoid`'s closure):
single-branch form `1/(1+exp(-x))`. -/
def LSTM.sigmoidScalar (e : ℚ → ℚ) (x : ℚ) : ℚ := 1 / (1 + e (-x))

/-- The numerically stable two-branch sigmoid exactly as the spec words it:
`for x≥0: 1/(1+e^-x); for x<0: e^x/(1+e^x)`.  Spec-side definition, used to
compare the engines' closures against the spec's requirement. -/
def specStableSigmoid (e : ℚ → ℚ) (x : ℚ) : ℚ :=
  if 0 ≤ x then 1 / (1 + e (-x)) else e x / (1 + e x)

/-- ReLU of `src/Logreg/src/main.rs` (`NeuralNetwork::relu` closure). -/
def NeuralNetwork.reluScalar (x : ℚ) : ℚ := if 0 < x then x else 0

/-- ReLU derivative of `src/Logreg/src/main.rs`
(`NeuralNetwork::relu_derivative` closure). -/
def NeuralNetwork.reluDerivScalar (x : ℚ) : ℚ := if 0 < x then 1 else 0

/-! ## Metrics (`src/Logreg/src/main.rs` lines 149–186; the RNN engine at
`src/RNN/src/main.rs` lines 117–149 has byte-identical definitions).
Predicted labels are modelled as `List ℕ` holding 0/1 (the `Array1<u8>`). -/

/-- True-positive count: pairs with `t == 1 && p == 1`. -/
def tpCount (yTrue yPred : List ℕ) : ℕ :=
  ((yTrue.zip yPred).filter (fun tp => tp.1 == 1 && tp.2 == 1)).length

/-- False-positive count: pairs with `t == 0 && p == 1`. -/
def fpCount (yTrue yPred : List ℕ) : ℕ :=
  ((yTrue.zip yPred).filter (fun tp => tp.1 == 0 && tp.2 == 1)).length

/-- False-negative count: pairs with `t == 1 && p == 0`. -/
def fnCount (yTrue yPred : List ℕ) : ℕ :=
  ((yTrue.zip yPred).filter (fun tp => tp.1 == 1 && tp.2 == 0)).length

/-- Model of `precision` (`src/Logreg/src/main.rs` lines 160–167): `tp / (tp + fp)`,
or 0 when `tp + fp == 0`. -/
def precision (yTrue yPred : List ℕ) : ℚ :=
  let tp : ℚ := (tpCount yTrue yPred : ℚ)
  let fp : ℚ := (fpCount yTrue yPred : ℚ)
  if tp + fp = 0 then 0 else tp / (tp + fp)

/-- Model of `recall` (Lean reserves the name `recall`, hence `recallMetric`) (`src/Logreg/src/main.rs` lines 170–177): `tp / (tp + fn)`,
or 0 when `tp + fn == 0`. -/
def recallMetric (yTrue yPred : List ℕ) : ℚ :=
  let tp : ℚ := (tpCount yTrue yPred : ℚ)
  let fnc : ℚ := (fnCount yTrue yPred : ℚ)
  if tp + fnc = 0 then 0 else tp / (tp + fnc)

/-- Model of `f1_score` (`src/Logreg/src/main.rs` lines 180–186). -/
def f1_score (p r : ℚ) : ℚ :=
  if p + r = 0 then 0 else 2 * (p * r) / (p + r)

/-! ## Logistic regression engine (`src/src/main.rs`) -/

/-- The `LogisticRegression` struct (`src/src/main.rs` lines 5–12). -/
structure LogisticRegression where
  weights : Vecq
  bias : ℚ
  lr : ℚ
  l2 : ℚ
  epochs : ℕ

/-- Model of `LogisticRegression::sigmoid` applied to a vector (`z.map(...)`,
`src/src/main.rs` lines 25–36). -/
def LogisticRegression.sigmoid (e : ℚ → ℚ) (z : Vecq) : Vecq :=
  z.map (LogisticRegression.sigmoidScalar e)

/-- One iteration of the loop body of `LogisticRegression::fit`
(`src/src/main.rs` lines 41–51). -/
def LogisticRegression.fitStep (e : ℚ → ℚ) (m : LogisticRegression)
    (X : Matq) (y : Vecq) : LogisticRegression :=
  let n : ℚ := (X.length : ℚ)
  let z := vecAddScalar (matVec X m.weights) m.bias
  let yHat := LogisticRegression.sigmoid e z
  let err := vecSub yHat y
  let gradW := vecAdd ((matVec (transposeM X) err).map (· / n))
    ((vecScale m.weights m.l2).map (· / n))
  let gradB := err.sum / n
  { m with weights := vecSub m.weights (vecScale gradW m.lr),
           bias := m.bias - m.lr * gradB }

/-- Model of `LogisticRegression::fit` (`src/src/main.rs` lines 38–52): repeat the
gradient step `epochs` times. -/
def LogisticRegression.fitLoop (e : ℚ → ℚ) (m : LogisticRegression)
    (X : Matq) (y : Vecq) : ℕ → LogisticRegression
  | 0 => m
  | k + 1 => LogisticRegression.fitLoop e (LogisticRegression.fitStep e m X y) X y k

/-- Model of `LogisticRegression::fit` entry point. -/
def LogisticRegression.fit (e : ℚ → ℚ) (m : LogisticRegression)
    (X : Matq) (y : Vecq) : LogisticRegression :=
  LogisticRegression.fitLoop e m X y m.epochs

/-- Model of `LogisticRegression::predict_proba` (`src/src/main.rs` lines 54–57). -/
def LogisticRegression.predict_proba (e : ℚ → ℚ) (m : LogisticRegression)
    (X : Matq) : Vecq :=
  LogisticRegression.sigmoid e (vecAddScalar (matVec X m.weights) m.bias)

/-- Model of `LogisticRegression::predict` (`src/src/main.rs` lines 59–62): label 1
iff the probability is `>= threshold`. -/
def LogisticRegression.predict (e : ℚ → ℚ) (m : LogisticRegression)
    (X : Matq) (threshold : ℚ) : List ℕ :=
  (LogisticRegression.predict_proba e m X).map
    (fun p => if threshold ≤ p then 1 else 0)

/-! ## Feedforward network engine (`src/Logreg/src/main.rs`) -/

/-- The `NeuralNetwork` struct (`src/Logreg/src/main.rs` lines 6–16). -/
structure NeuralNetwork where
  w1 : Matq
  b1 : Vecq
  w2 : Matq
  b2 : ℚ
  lr : ℚ
  epochs : ℕ
  hidden_size : ℕ

/-- Model of `NeuralNetwork::relu` on a matrix (`src/Logreg/src/main.rs` lines 48–50). -/
def NeuralNetwork.relu (X : Matq) : Matq := matMap NeuralNetwork.reluScalar X

/-- Model of `NeuralNetwork::relu_derivative` on a matrix (lines 52–54). -/
def NeuralNetwork.relu_derivative (X : Matq) : Matq :=
  matMap NeuralNetwork.reluDerivScalar X

/-- Model of `NeuralNetwork::sigmoid` on a matrix (lines 57–67). -/
def NeuralNetwork.sigmoid (e : ℚ → ℚ) (X : Matq) : Matq :=
  matMap (NeuralNetwork.sigmoidScalar e) X

/-- Model of `NeuralNetwork::forward` (`src/Logreg/src/main.rs` lines 75–85):
`z1 = X·W1 + b1`, `a1 = ReLU(z1)`, `z2 = a1·W2 + b2`, `a2 = sigmoid(z2)`;
returns `(a1, z2, a2)`. -/
def NeuralNetwork.forward (e : ℚ → ℚ) (m : NeuralNetwork) (X : Matq) :
    Matq × Matq × Matq :=
  let z1 := addRowVec (matMul X m.w1) m.b1
  let a1 := NeuralNetwork.relu z1
  let z2 := matAddScalar (matMul a1 m.w2) m.b2
  let a2 := NeuralNetwork.sigmoid e z2
  (a1, z2, a2)

/-- One iteration of the loop body of `NeuralNetwork::fit`
(`src/Logreg/src/main.rs` lines 91–122, the loss print at lines 118–121 being
console telemetry with no effect on the state). -/
def NeuralNetwork.fitStep (e : ℚ → ℚ) (m : NeuralNetwork)
    (X : Matq) (y : Vecq) : NeuralNetwork :=
  let n : ℚ := (X.length : ℚ)
  let fwd := NeuralNetwork.forward e m X
  let a1 := fwd.1
  let a2 := fwd.2.2
  let yCol := asCol y
  let dz2 := matSub a2 yCol
  let dw2 := matMap (· / n) (matMul (transposeM a1) dz2)
  let db2 := matSum dz2 / n
  let da1 := matMul dz2 (transposeM m.w2)
  let z1 := addRowVec (matMul X m.w1) m.b1
  let dz1 := matHad da1 (NeuralNetwork.relu_derivative z1)
  let dw1 := matMap (· / n) (matMul (transposeM X) dz1)
  let db1 := meanAxis0 dz1
  { m with w1 := matSub m.w1 (matScale dw1 m.lr),
           b1 := vecSub m.b1 (vecScale db1 m.lr),
           w2 := matSub m.w2 (matScale dw2 m.lr),
           b2 := m.b2 - db2 * m.lr }

/-- The epoch loop of `NeuralNetwork::fit` (`src/Logreg/src/main.rs`
lines 88–123). -/
def NeuralNetwork.fitLoop (e : ℚ → ℚ) (m : NeuralNetwork)
    (X : Matq) (y : Vecq) : ℕ → NeuralNetwork
  | 0 => m
  | k + 1 => NeuralNetwork.fitLoop e (NeuralNetwork.fitStep e m X y) X y k

/-- Model of `NeuralNetwork::fit` entry point. -/
def NeuralNetwork.fit (e : ℚ → ℚ) (m : NeuralNetwork)
    (X : Matq) (y : Vecq) : NeuralNetwork :=
  NeuralNetwork.fitLoop e m X y m.epochs

/-- Model of `NeuralNetwork::predict_proba` (`src/Logreg/src/main.rs` lines 137–140). -/
def NeuralNetwork.predict_proba (e : ℚ → ℚ) (m : NeuralNetwork)
    (X : Matq) : Vecq :=
  col0 (NeuralNetwork.forward e m X).2.2

/-- Model of `NeuralNetwork::predict` (`src/Logreg/src/main.rs` lines 143–146). -/
def NeuralNetwork.predict (e : ℚ → ℚ) (m : NeuralNetwork)
    (X : Matq) (threshold : ℚ) : List ℕ :=
  (NeuralNetwork.predict_proba e m X).map
    (fun p => if threshold ≤ p then 1 else 0)

/-! ## Vanilla RNN engine (`src/RNN/src/main.rs`) -/

/-- The `RNN` struct (`src/RNN/src/main.rs` lines 8–18). -/
structure RNN where
  w_xh : Matq
  w_hh : Matq
  b_h : Vecq
  w_hy : Matq
  b_y : ℚ
  hidden_size : ℕ
  lr : ℚ
  epochs : ℕ

/-- The timestep loop of `RNN::forward` (`src/RNN/src/main.rs` lines 64–69),
as structural recursion on the number `k` of remaining timesteps starting at
timestep `t` with previous hidden state `hPrev`.  Returns the list of hidden
states pushed to `hs` and the final `h_prev`. -/
def RNN.run (e th : ℚ → ℚ) (m : RNN) (X : Matq) (hPrev : Matq) :
    ℕ → ℕ → List Matq × Matq
  | _, 0 => ([], hPrev)
  | t, k + 1 =>
    let xT := X.map (fun row => [row.getD t 0])
    let hT := matMap th
      (addRowVec (matAdd (matMul xT m.w_xh) (matMul hPrev m.w_hh)) m.b_h)
    let rest := RNN.run e th m X hT (t + 1) k
    (hT :: rest.1, rest.2)

/-- Model of `RNN::forward` (`src/RNN/src/main.rs` lines 56–74): each of the
`X.ncols()` features is one timestep; after the loop the logits are
`h_prev·W_hy + b_y` and the prediction is their sigmoid. -/
def RNN.forward (e th : ℚ → ℚ) (m : RNN) (X : Matq) : List Matq × Matq :=
  let r := RNN.run e th m X (zerosM X.length m.hidden_size) 0 (ncols X)
  let yLogits := matAddScalar (matMul r.2 m.w_hy) m.b_y
  (r.1, matMap (RNN.sigmoidScalar e) yLogits)

/-- One iteration of the loop body of `RNN::fit` (`src/RNN/src/main.rs`
lines 88–104).  The source calls `_hs.last().unwrap()`; the `unwrap` of an
empty hidden-state list (a panic in Rust) is modelled by `none`. -/
def RNN.fitStep (e th : ℚ → ℚ) (m : RNN) (X : Matq) (yCol : Matq) :
    Option RNN :=
  let fwd := RNN.forward e th m X
  match fwd.1.getLast? with
  | none => none
  | some hLast =>
    let n : ℚ := (X.length : ℚ)
    let dz := matSub fwd.2 yCol
    let dwHy := matMap (· / n) (matMul (transposeM hLast) dz)
    let dbY := matSum dz / n
    some { m with w_hy := matSub m.w_hy (matScale dwHy m.lr),
                  b_y := m.b_y - dbY * m.lr }

/-- The epoch loop of `RNN::fit`. -/
def RNN.fitLoop (e th : ℚ → ℚ) (X : Matq) (yCol : Matq) :
    RNN → ℕ → Option RNN
  | m, 0 => some m
  | m, k + 1 =>
    match RNN.fitStep e th m X yCol with
    | none => none
    | some m2 => RNN.fitLoop e th X yCol m2 k

/-- Model of `RNN::fit` (`src/RNN/src/main.rs` lines 84–105): `y` is reshaped to a
column once, then the gradient step runs for `epochs` iterations. -/
def RNN.fit (e th : ℚ → ℚ) (m : RNN) (X : Matq) (y : Vecq) : Option RNN :=
  RNN.fitLoop e th X (asCol y) m m.epochs

/-! ## GRU engine (`src/RNN/GRU/src/main.rs`) -/

/-- A `(batch, seq_len, input_size)` tensor, modelling `Array3<f64>`. -/
abbrev Tensor3 := List (List (List ℚ))

/-- The `GRU` struct (`src/RNN/GRU/src/main.rs` lines 15–29). -/
structure GRU where
  w_z : Matq
  u_z : Matq
  b_z : Vecq
  w_r : Matq
  u_r : Matq
  b_r : Vecq
  w_h : Matq
  u_h : Matq
  b_h : Vecq
  w_hy : Matq
  b_y : ℚ
  input_size : ℕ
  hidden_size : ℕ
  lr : ℚ

/-- The timestep loop of `GRU::forward` (`src/RNN/GRU/src/main.rs`
lines 81–91), as structural recursion on the remaining timestep count.
Returns the final hidden state and the `hs` list. -/
def GRU.run (e th : ℚ → ℚ) (m : GRU) (X : Tensor3) (h : Matq) :
    ℕ → ℕ → Matq × List Matq
  | _, 0 => (h, [])
  | t, k + 1 =>
    let xT := X.map (fun sample => sample.getD t [])
    let zT := matMap (GRU.sigmoidScalar e)
      (addRowVec (matAdd (matMul xT m.w_z) (matMul h m.u_z)) m.b_z)
    let rT := matMap (GRU.sigmoidScalar e)
      (addRowVec (matAdd (matMul xT m.w_r) (matMul h m.u_r)) m.b_r)
    let hTilde := matMap th
      (addRowVec (matAdd (matMul xT m.w_h) (matMul (matHad rT h) m.u_h)) m.b_h)
    let hNew := matAdd (matHad (matMap (fun z => 1 - z) zT) h) (matHad zT hTilde)
    let rest := GRU.run e th m X hNew (t + 1) k
    (rest.1, hNew :: rest.2)

/-- Model of `GRU::forward` (`src/RNN/GRU/src/main.rs` lines 74–94). -/
def GRU.forward (e th : ℚ → ℚ) (m : GRU) (X : Tensor3) : Matq × List Matq :=
  GRU.run e th m X (zerosM X.length m.hidden_size) 0 (X.headD []).length

/-- Model of `GRU::predict` (`src/RNN/GRU/src/main.rs` lines 97–101). -/
def GRU.predict (e th : ℚ → ℚ) (m : GRU) (X : Tensor3) : Vecq :=
  col0 (matAddScalar (matMul (GRU.forward e th m X).1 m.w_hy) m.b_y)

/-- One iteration of the loop body of `GRU::fit_output_only`
(`src/RNN/GRU/src/main.rs` lines 106–122; the MSE print at lines 118–121 is
console telemetry with no effect on the state). -/
def GRU.fitStep (e th : ℚ → ℚ) (m : GRU) (X : Tensor3) (y : Vecq) : GRU :=
  let n : ℚ := (X.length : ℚ)
  let hLast := (GRU.forward e th m X).1
  let yPredCol := col0 (matAddScalar (matMul hLast m.w_hy) m.b_y)
  let diff := vecSub yPredCol y
  let gradW := matMap (fun v => v / n) (matMul (transposeM hLast) (asCol diff))
  let gradB := diff.sum / n
  { m with w_hy := matSub m.w_hy (matScale gradW m.lr),
           b_y := m.b_y - m.lr * gradB }

/-- Model of `GRU::fit_output_only` (`src/RNN/GRU/src/main.rs` lines 104–123). -/
def GRU.fit_output_only (e th : ℚ → ℚ) (X : Tensor3) (y : Vecq) :
    GRU → ℕ → GRU
  | m, 0 => m
  | m, k + 1 => GRU.fit_output_only e th X y (GRU.fitStep e th m X y) k

/-! ## LSTM engine (`src/RNN/LSTM/src/main.rs`) -/

/-- The `LSTM` struct (`src/RNN/LSTM/src/main.rs` lines 15–30). -/
structure LSTM where
  w_i : Matq
  u_i : Matq
  b_i : Vecq
  w_f : Matq
  u_f : Matq
  b_f : Vecq
  w_o : Matq
  u_o : Matq
  b_o : Vecq
  w_g : Matq
  u_g : Matq
  b_g : Vecq
  w_hy : Matq
  b_y : ℚ
  input_size : ℕ
  hidden_size : ℕ
  lr : ℚ

/-- The timestep loop of `LSTM::forward` (`src/RNN/LSTM/src/main.rs`
lines 96–110), recursing on the remaining timestep count with current hidden
state `h` and cell state `c`.  Returns the final hidden state and `hs`. -/
def LSTM.run (e th : ℚ → ℚ) (m : LSTM) (X : Tensor3) (h c : Matq) :
    ℕ → ℕ → Matq × List Matq
  | _, 0 => (h, [])
  | t, k + 1 =>
    let xT := X.map (fun sample => sample.getD t [])
    let iT := matMap (LSTM.sigmoidScalar e)
      (addRowVec (matAdd (matMul xT m.w_i) (matMul h m.u_i)) m.b_i)
    let fT := matMap (LSTM.sigmoidScalar e)
      (addRowVec (matAdd (matMul xT m.w_f) (matMul h m.u_f)) m.b_f)
    let oT := matMap (LSTM.sigmoidScalar e)
      (addRowVec (matAdd (matMul xT m.w_o) (matMul h m.u_o)) m.b_o)
    let gT := matMap th
      (addRowVec (matAdd (matMul xT m.w_g) (matMul h m.u_g)) m.b_g)
    let cNew := matAdd (matHad fT c) (matHad iT gT)
    let hNew := matHad oT (matMap th cNew)
    let rest := LSTM.run e th m X hNew cNew (t + 1) k
    (rest.1, hNew :: rest.2)

/-- Model of `LSTM::forward` (`src/RNN/LSTM/src/main.rs` lines 87–113). -/
def LSTM.forward (e th : ℚ → ℚ) (m : LSTM) (X : Tensor3) : Matq × List Matq :=
  LSTM.run e th m X (zerosM X.length m.hidden_size)
    (zerosM X.length m.hidden_size) 0 (X.headD []).length

/-- Model of `LSTM::predict` (`src/RNN/LSTM/src/main.rs` lines 116–120). -/
def LSTM.predict (e th : ℚ → ℚ) (m : LSTM) (X : Tensor3) : Vecq :=
  col0 (matAddScalar (matMul (LSTM.forward e th m X).1 m.w_hy) m.b_y)

/-- One iteration of the loop body of `LSTM::fit_output_only`
(`src/RNN/LSTM/src/main.rs` lines 126–144). -/
def LSTM.fitStep (e th : ℚ → ℚ) (m : LSTM) (X : Tensor3) (y : Vecq) : LSTM :=
  let n : ℚ := (X.length : ℚ)
  let hLast := (LSTM.forward e th m X).1
  let yPredCol := col0 (matAddScalar (matMul hLast m.w_hy) m.b_y)
  let diff := vecSub yPredCol y
  let gradW := matMap (fun v => v / n) (matMul (transposeM hLast) (asCol diff))
  let gradB := diff.sum / n
  { m with w_hy := matSub m.w_hy (matScale gradW m.lr),
           b_y := m.b_y - m.lr * gradB }

/-- Model of `LSTM::fit_output_only` (`src/RNN/LSTM/src/main.rs` lines 124–145). -/
def LSTM.fit_output_only (e th : ℚ → ℚ) (X : Tensor3) (y : Vecq) :
    LSTM → ℕ → LSTM
  | m, 0 => m
  | m, k + 1 => LSTM.fit_output_only e th X y (LSTM.fitStep e th m X y) k

/-! ## Windowed time-series dataset construction

`make_dataset` is byte-identical in `src/RNN/GRU/src/main.rs` (lines 139–166)
and `src/RNN/LSTM/src/main.rs` (lines 162–191); it is embedded once.  The
scalar z-score pipeline is split into named sub-definitions so that theorems
can talk about the mean, the raw standard deviation and the divisor the code
actually uses. -/

/-- Model of `f64::sqrt` is modelled by Mathlib's rational square root `Rat.sqrt`,
which is exact on perfect rational squares (`Rat.sqrt (q * q) = |q|`); all
concrete series in theorems below are chosen so that the variance is a
perfect square. -/
def ratSqrt (q : ℚ) : ℚ := Rat.sqrt q

/-- The raw windows: `X[i][t][0] = series[i + t]` for
`i < len − seq_len`, `t < seq_len` (the first loop nest of `make_dataset`). -/
def windowsX (series : List ℚ) (seqLen : ℕ) : Tensor3 :=
  (List.range (series.length - seqLen)).map
    (fun i => (List.range seqLen).map (fun t => [series.getD (i + t) 0]))

/-- The raw targets: `y[i] = series[i + seq_len]`. -/
def windowsY (series : List ℚ) (seqLen : ℕ) : Vecq :=
  (List.range (series.length - seqLen)).map
    (fun i => series.getD (i + seqLen) 0)

/-- Model of `all_values`: every entry of `X` flattened (`X.iter().cloned()`). -/
def allValues (series : List ℚ) (seqLen : ℕ) : List ℚ :=
  ((windowsX series seqLen).map List.flatten).flatten

/-- The global scalar mean of `all_values`. -/
def dsMean (series : List ℚ) (seqLen : ℕ) : ℚ :=
  (allValues series seqLen).sum / ((allValues series seqLen).length : ℚ)

/-- The raw standard deviation of `all_values` (before the zero check). -/
def dsStdRaw (series : List ℚ) (seqLen : ℕ) : ℚ :=
  ratSqrt (((allValues series seqLen).map
    (fun v => (v - dsMean series seqLen) ^ 2)).sum /
    ((allValues series seqLen).length : ℚ))

/-- The divisor `make_dataset` actually uses:
`let std = if std == 0.0 { 1e-8 } else { std };`. -/
def dsDivisor (series : List ℚ) (seqLen : ℕ) : ℚ :=
  if dsStdRaw series seqLen = 0 then 1e-8 else dsStdRaw series seqLen

/-- Model of `make_dataset` (`src/RNN/GRU/src/main.rs` lines 139–166 and
`src/RNN/LSTM/src/main.rs` lines 162–191): build the raw windows and targets,
then z-score every value by the global mean and the divisor above. -/
def make_dataset (series : List ℚ) (seqLen : ℕ) : Tensor3 × Vecq :=
  let mean := dsMean series seqLen
  let std := dsDivisor series seqLen
  ((windowsX series seqLen).map
      (List.map (List.map (fun v => (v - mean) / std))),
    (windowsY series seqLen).map (fun v => (v - mean) / std))

/-- Modelled from the spec's words for comparison (the refinement target of
claim C5): identical to `make_dataset` except that the divisor is
`std` *floored at `1e-8`*, i.e. `max(std, 1e-8)`. -/
def make_dataset_specFloor (series : List ℚ) (seqLen : ℕ) : Tensor3 × Vecq :=
  let mean := dsMean series seqLen
  let std := max (dsStdRaw series seqLen) 1e-8
  ((windowsX series seqLen).map
      (List.map (List.map (fun v => (v - mean) / std))),
    (windowsY series seqLen).map (fun v => (v - mean) / std))

/-- The series-length guard of `main` in `src/RNN/GRU/src/main.rs`
(lines 185–190): with `seq_len = 24`, abort with `"Series too short"` when
`series.len() <= seq_len + 1`, otherwise build the dataset. -/
def gruMainDataset (series : List ℚ) : Except String (Tensor3 × Vecq) :=
  if series.length ≤ 24 + 1 then Except.error "Series too short"
  else Except.ok (make_dataset series 24)

/-- The series-length guard of `main` in `src/RNN/LSTM/src/main.rs`
(lines 212–218): identical to the GRU one. -/
def lstmMainDataset (series : List ℚ) : Except String (Tensor3 × Vecq) :=
  if series.length ≤ 24 + 1 then Except.error "Series too short"
  else Except.ok (make_dataset series 24)

/-- The test-size computation of both time-series `main`s:
`(n_samples as f64 * 0.1).ceil() as usize`. -/
def nTestOf (nSamples : ℕ) : ℕ := (⌈(nSamples : ℚ) * 0.1⌉).toNat

/-- The train-size computation: `n_samples - n_test`. -/
def nTrainOf (nSamples : ℕ) : ℕ := nSamples - nTestOf nSamples

/-! ## Spec-side definitions (written from the spec's words, for refinement
comparisons) and concrete inputs used by witnesses -/

/-- Number of scalar entries of a matrix. -/
def matEntryCount (A : Matq) : ℕ := (A.map List.length).sum

/-- Mean of all entries of a matrix (the spec's `mean(dz2)`). -/
def matMean (A : Matq) : ℚ := matSum A / (matEntryCount A : ℚ)

/-- Column-wise means (the spec's `mean(dz1, axis=0)`): each column's sum
divided by that column's length. -/
def colMeans (A : Matq) : Vecq :=
  (transposeM A).map (fun col => col.sum / (col.length : ℚ))

/-- One full-batch iteration of the feedforward `fit`, written from the spec's
words (claim C2): forward pass `z1 = X·W1 + b1`, `a1 = ReLU(z1)`,
`z2 = a1·W2 + b2`, `a2 = sigmoid(z2)`; `dz2 = a2 − y`; `dW2 = a1ᵗ·dz2/n`;
`db2 = mean(dz2)`; `da1 = dz2·W2ᵗ`; `dz1 = da1` gated by the ReLU derivative
of `z1`; `dW1 = Xᵗ·dz1/n`; `db1` the column-wise mean of `dz1`; then
`param -= learning_rate * grad` for every parameter. -/
def NeuralNetwork.specStep (e : ℚ → ℚ) (m : NeuralNetwork)
    (X : Matq) (y : Vecq) : NeuralNetwork :=
  let n : ℚ := (X.length : ℚ)
  let z1 := addRowVec (matMul X m.w1) m.b1
  let a1 := matMap NeuralNetwork.reluScalar z1
  let z2 := matAddScalar (matMul a1 m.w2) m.b2
  let a2 := matMap (specStableSigmoid e) z2
  let dz2 := matSub a2 (asCol y)
  let dw2 := matMap (· / n) (matMul (transposeM a1) dz2)
  let db2 := matMean dz2
  let da1 := matMul dz2 (transposeM m.w2)
  let dz1 := matHad da1 (matMap NeuralNetwork.reluDerivScalar z1)
  let dw1 := matMap (· / n) (matMul (transposeM X) dz1)
  let db1 := colMeans dz1
  { m with w1 := matSub m.w1 (matScale dw1 m.lr),
           b1 := vecSub m.b1 (vecScale db1 m.lr),
           w2 := matSub m.w2 (matScale dw2 m.lr),
           b2 := m.b2 - db2 * m.lr }

/-- Model of `epoch_count` iterations of the spec-side step (claim C2's description of
the whole of `fit`). -/
def NeuralNetwork.specFit (e : ℚ → ℚ) (m : NeuralNetwork)
    (X : Matq) (y : Vecq) : NeuralNetwork :=
  (fun mm => NeuralNetwork.specStep e mm X y)^[m.epochs] m

/-- Identity stand-in for the abstract `exp`/`tanh` parameters in concrete
witnesses (any function works; the theorems are parametric in it). -/
def idq : ℚ → ℚ := fun q => q

/-- A concrete 1-hidden-unit RNN used by witnesses. -/
def rnn0 : RNN :=
  { w_xh := [[1]], w_hh := [[0]], b_h := [0], w_hy := [[1]], b_y := 0,
    hidden_size := 1, lr := 1, epochs := 1 }

/-- Model of `rnn0` with a zero epoch count (used to exhibit that `fit` with zero
epochs never reaches the `unwrap`). -/
def rnnZeroEpochs : RNN :=
  { w_xh := [[1]], w_hh := [[0]], b_h := [0], w_hy := [[1]], b_y := 0,
    hidden_size := 1, lr := 1, epochs := 0 }

/-- A concrete 1-hidden-unit GRU used by witnesses. -/
def gru0 : GRU :=
  { w_z := [[1]], u_z := [[0]], b_z := [0],
    w_r := [[1]], u_r := [[0]], b_r := [0],
    w_h := [[1]], u_h := [[0]], b_h := [0],
    w_hy := [[1]], b_y := 0, input_size := 1, hidden_size := 1, lr := 1 }

/-- A concrete 1-hidden-unit LSTM used by witnesses. -/
def lstm0 : LSTM :=
  { w_i := [[1]], u_i := [[0]], b_i := [0],
    w_f := [[1]], u_f := [[0]], b_f := [0],
    w_o := [[1]], u_o := [[0]], b_o := [0],
    w_g := [[1]], u_g := [[0]], b_g := [0],
    w_hy := [[1]], b_y := 0, input_size := 1, hidden_size := 1, lr := 1 }

/-- A concrete 1-feature logistic regression used by witnesses. -/
def logreg0 : LogisticRegression :=
  { weights := [0], bias := 0, lr := 1, l2 := 0, epochs := 2 }

/-- A concrete 1-input, 1-hidden-unit feedforward network used by witnesses. -/
def nn0 : NeuralNetwork :=
  { w1 := [[1]], b1 := [0], w2 := [[1]], b2 := 0, lr := 1, epochs := 1,
    hidden_size := 1 }

/-! # Theorems -/

/-- C7: `precision` returns 0 whenever the predicted-positive count `tp + fp`
is zero and `tp/(tp+fp)` otherwise; `recall` returns 0 whenever the
actual-positive count `tp + fn` is zero and `tp/(tp+fn)` otherwise; and
`f1_score p r` returns 0 when `p = r = 0` and the harmonic mean `2pr/(p+r)`
otherwise — in particular `f1_score 0 0 = 0` and `f1_score 1 1 = 1`. -/
theorem c7_metrics_contract :
    (∀ yt yp : List ℕ, precision yt yp =
      if tpCount yt yp + fpCount yt yp = 0 then 0
      else (tpCount yt yp : ℚ) / ((tpCount yt yp : ℚ) + (fpCount yt yp : ℚ))) ∧
    (∀ yt yp : List ℕ, recallMetric yt yp =
      if tpCount yt yp + fnCount yt yp = 0 then 0
      else (tpCount yt yp : ℚ) / ((tpCount yt yp : ℚ) + (fnCount yt yp : ℚ))) ∧
    (∀ p r : ℚ, f1_score p r =
      if p = 0 ∧ r = 0 then 0 else 2 * (p * r) / (p + r)) ∧
    f1_score 0 0 = 0 ∧ f1_score 1 1 = 1 := by
  refine ⟨?_, ?_, ?_, by simp [f1_score], by norm_num [f1_score]⟩
  · intro yt yp
    have hc : ((tpCount yt yp : ℚ) + (fpCount yt yp : ℚ) = 0) ↔
        (tpCount yt yp + fpCount yt yp = 0) := by
      rw [← Nat.cast_add, Nat.cast_eq_zero]
    simp only [precision, hc]
  · intro yt yp
    have hc : ((tpCount yt yp : ℚ) + (fnCount yt yp : ℚ) = 0) ↔
        (tpCount yt yp + fnCount yt yp = 0) := by
      rw [← Nat.cast_add, Nat.cast_eq_zero]
    simp only [recallMetric, hc]
  · intro p r
    by_cases h : p + r = 0
    · by_cases hb : p = 0 ∧ r = 0 <;> simp [f1_score, h, hb, div_zero]
    · have hb : ¬(p = 0 ∧ r = 0) := by
        rintro ⟨hp, hr⟩; exact h (by rw [hp, hr, add_zero])
      simp [f1_score, h, hb]

/-- C3 counterexample: `RNN::sigmoid`'s closure is not the two-branch stable
form — with the abstract exponential `fun q => q + 5` the two disagree at
`x = -1` (the single-branch form gives `1/7`, the stable form `4/5`). -/
theorem c3_counterexample :
    RNN.sigmoidScalar (fun q => q + 5) (-1) ≠
      specStableSigmoid (fun q => q + 5) (-1) := by
  norm_num [RNN.sigmoidScalar, specStableSigmoid]

/-- C3 amended: only the logistic-regression and feedforward engines compute
the sigmoid in the numerically stable two-branch form; the RNN, GRU and LSTM
engines compute the single-branch form `1/(1+exp(-x))` for every input. -/
theorem c3_amended_forms :
    (∀ e x, LogisticRegression.sigmoidScalar e x = specStableSigmoid e x) ∧
    (∀ e x, NeuralNetwork.sigmoidScalar e x = specStableSigmoid e x) ∧
    (∀ e x, RNN.sigmoidScalar e x = 1 / (1 + e (-x))) ∧
    (∀ e x, GRU.sigmoidScalar e x = 1 / (1 + e (-x))) ∧
    (∀ e x, LSTM.sigmoidScalar e x = 1 / (1 + e (-x))) :=
  ⟨fun _ _ => rfl, fun _ _ => rfl, fun _ _ => rfl, fun _ _ => rfl,
    fun _ _ => rfl⟩

/-- C4 counterexample: a series of length exactly `seq_len + 1 = 25` makes
both time-series runs abort, although the claim says a run proceeds for every
series of length ≥ `seq_len + 1`. -/
theorem c4_counterexample :
    gruMainDataset (List.replicate 25 0) = Except.error "Series too short" ∧
    lstmMainDataset (List.replicate 25 0) = Except.error "Series too short" ∧
    ¬((List.replicate 25 (0 : ℚ)).length < 24 + 1) := by
  refine ⟨rfl, rfl, by simp⟩

/-- C4 amended: the time-series runs abort if and only if the loaded series
is shorter than the window length plus two: the guard
`series.len() <= seq_len + 1` errors exactly when `len < seq_len + 2` and the
dataset is built (before any model construction) exactly when
`len ≥ seq_len + 2`. -/
theorem c4_amended_guard : ∀ series : List ℚ,
    ((gruMainDataset series).isOk = false ↔ series.length < 24 + 2) ∧
    ((lstmMainDataset series).isOk = false ↔ series.length < 24 + 2) := by
  intro series
  by_cases h : series.length ≤ 24 + 1 <;>
    · constructor <;>
        · simp [gruMainDataset, lstmMainDataset, h, Except.isOk, Except.toBool]
          omega

/-- C5 counterexample: for the series `[0, 2e-9, 0]` with `seq_len = 1` the
raw standard deviation is `1e-9 ≠ 0`, so `make_dataset` divides by `1e-9`,
which is *smaller* than `1e-8`; the divisor is not `max(std, 1e-8)` and the
produced targets differ from the floored variant's. -/
theorem c5_counterexample :
    dsDivisor [0, 1/500000000, 0] 1 = 1/1000000000 ∧
    dsDivisor [0, 1/500000000, 0] 1 < 1e-8 ∧
    (make_dataset [0, 1/500000000, 0] 1).2 ≠
      (make_dataset_specFloor [0, 1/500000000, 0] 1).2 := by
  have hall : allValues [0, 1/500000000, 0] 1 = [0, 1/500000000] := rfl
  have hwy : windowsY [0, 1/500000000, 0] 1 = [1/500000000, 0] := rfl
  have hmean : dsMean [0, 1/500000000, 0] 1 = 1/1000000000 := by
    rw [dsMean, hall]; norm_num
  have hstd : dsStdRaw [0, 1/500000000, 0] 1 = 1/1000000000 := by
    rw [dsStdRaw, ratSqrt, hall, hmean]
    have harg : ((List.map (fun v => (v - 1/1000000000)^2) [0, 1/500000000]).sum
        / (([0, (1:ℚ)/500000000].length : ℕ) : ℚ))
        = (1/1000000000 : ℚ) * (1/1000000000) := by
      norm_num
    rw [harg, Rat.sqrt_eq]
    norm_num
  have hdiv : dsDivisor [0, 1/500000000, 0] 1 = 1/1000000000 := by
    rw [dsDivisor, hstd]; norm_num
  refine ⟨hdiv, by rw [hdiv]; norm_num, ?_⟩
  simp only [make_dataset, make_dataset_specFloor, hmean, hdiv, hstd, hwy]
  norm_num

/-- C5 amended: the divisor used by `make_dataset` equals the raw standard
deviation whenever that is nonzero (even when it is below `1e-8`), and equals
`1e-8` only when the raw standard deviation is exactly zero; consequently the
spec's `max(std, 1e-8)` description is accurate exactly on inputs whose raw
standard deviation is zero or at least `1e-8`. -/
theorem c5_amended_divisor : ∀ (series : List ℚ) (L : ℕ),
    (dsStdRaw series L = 0 → dsDivisor series L = 1e-8) ∧
    (dsStdRaw series L ≠ 0 → dsDivisor series L = dsStdRaw series L) ∧
    (1e-8 ≤ dsStdRaw series L ∨ dsStdRaw series L = 0 →
      make_dataset series L = make_dataset_specFloor series L) := by
  intro series L
  refine ⟨fun h => by rw [dsDivisor, if_pos h],
          fun h => by rw [dsDivisor, if_neg h],
          fun h => ?_⟩
  have hdiv : dsDivisor series L = max (dsStdRaw series L) 1e-8 := by
    rcases h with h | h
    · rw [dsDivisor, if_neg, max_eq_left h]
      intro h0; rw [h0] at h; norm_num at h
    · rw [dsDivisor, if_pos h, h, max_eq_right]; norm_num
  simp only [make_dataset, make_dataset_specFloor, hdiv]

/-- C5 witness: the all-zero series has raw standard deviation zero, and
there `make_dataset` agrees with the `max`-floored variant. -/
theorem c5_witness :
    dsStdRaw [0, 0, 0] 1 = 0 ∧
    make_dataset [0, 0, 0] 1 = make_dataset_specFloor [0, 0, 0] 1 := by
  have hmean : dsMean [0, 0, 0] 1 = 0 := by
    rw [dsMean, show allValues [0, 0, 0] 1 = [0, 0] from rfl]; norm_num
  have h0 : dsStdRaw [0, 0, 0] 1 = 0 := by
    rw [dsStdRaw, ratSqrt, show allValues [0, 0, 0] 1 = [0, 0] from rfl, hmean]
    have harg : ((List.map (fun v => (v - 0)^2) [0, 0]).sum
        / (([0, (0:ℚ)].length : ℕ) : ℚ)) = (0 : ℚ) * 0 := by norm_num
    rw [harg, Rat.sqrt_eq]
    norm_num
  exact ⟨h0, (c5_amended_divisor [0, 0, 0] 1).2.2 (Or.inr h0)⟩

/-- The number of 1-labels produced by thresholding a probability list is the
number of probabilities at or above the threshold. -/
theorem count_one_map_indicator (t : ℚ) (l : Vecq) :
    ((l.map (fun p => if t ≤ p then (1 : ℕ) else 0)).count 1) =
      l.countP (fun p => decide (t ≤ p)) := by
  induction l with
  | nil => rfl
  | cons a l ih =>
    by_cases h : t ≤ a <;>
      simp [List.count_cons, List.countP_cons, h, ih]

/-- C8: for a fixed model and input (hence fixed `predict_proba` outputs) and
thresholds `t1 ≤ t2`, `predict` at `t2` labels at most as many samples 1 as
`predict` at `t1` — for both the feedforward network and the logistic
regression. -/
theorem c8_threshold_monotonic :
    ∀ (e : ℚ → ℚ) (t1 t2 : ℚ), t1 ≤ t2 →
    (∀ (m : LogisticRegression) (X : Matq),
      (LogisticRegression.predict e m X t2).count 1 ≤
        (LogisticRegression.predict e m X t1).count 1) ∧
    (∀ (m : NeuralNetwork) (X : Matq),
      (NeuralNetwork.predict e m X t2).count 1 ≤
        (NeuralNetwork.predict e m X t1).count 1) := by
  intro e t1 t2 h12
  constructor
  · intro m X
    unfold LogisticRegression.predict
    rw [count_one_map_indicator, count_one_map_indicator]
    refine List.countP_mono_left ?_
    intro x _ hx
    simp only [decide_eq_true_eq] at *
    exact le_trans h12 hx
  · intro m X
    unfold NeuralNetwork.predict
    rw [count_one_map_indicator, count_one_map_indicator]
    refine List.countP_mono_left ?_
    intro x _ hx
    simp only [decide_eq_true_eq] at *
    exact le_trans h12 hx

/-- C8 witness: concrete models and thresholds `0 ≤ 1`. -/
theorem c8_witness :
    ((0 : ℚ) ≤ 1) ∧
    ((LogisticRegression.predict idq logreg0 [[1]] 1).count 1 ≤
      (LogisticRegression.predict idq logreg0 [[1]] 0).count 1) ∧
    ((NeuralNetwork.predict idq nn0 [[1]] 1).count 1 ≤
      (NeuralNetwork.predict idq nn0 [[1]] 0).count 1) :=
  ⟨by norm_num,
    (c8_threshold_monotonic idq 0 1 (by norm_num)).1 logreg0 [[1]],
    (c8_threshold_monotonic idq 0 1 (by norm_num)).2 nn0 [[1]]⟩

/-! ### Shape lemmas for the list-matrix substrate -/

theorem length_transposeM (A : Matq) : (transposeM A).length = ncols A := by
  simp [transposeM]

theorem mem_transposeM_length {A : Matq} {col : Vecq}
    (h : col ∈ transposeM A) : col.length = A.length := by
  simp only [transposeM, List.mem_map, List.mem_range] at h
  obtain ⟨j, _, rfl⟩ := h
  simp

theorem ncols_of_isMat {r c : ℕ} {A : Matq} (h : isMat r c A) (hr : 0 < r) :
    ncols A = c := by
  obtain ⟨hlen, hrows⟩ := h
  cases A with
  | nil => simp at hlen; omega
  | cons a as => exact hrows a (List.mem_cons_self a as)

theorem isMat_transposeM {r c : ℕ} {A : Matq} (h : isMat r c A) (hr : 0 < r) :
    isMat c r (transposeM A) := by
  refine ⟨by rw [length_transposeM, ncols_of_isMat h hr], ?_⟩
  intro col hcol
  rw [mem_transposeM_length hcol, h.1]

theorem isMat_matMul {r c d : ℕ} {A B : Matq} (hA : isMat r c A)
    (hB : isMat c d B) (hc : 0 < c) : isMat r d (matMul A B) := by
  refine ⟨by simp [matMul, hA.1], ?_⟩
  intro row hrow
  simp only [matMul, List.mem_map] at hrow
  obtain ⟨arow, _, rfl⟩ := hrow
  simp [length_transposeM, ncols_of_isMat hB hc]

theorem isMat_matMap {r c : ℕ} (f : ℚ → ℚ) {A : Matq} (h : isMat r c A) :
    isMat r c (matMap f A) := by
  refine ⟨by simp [matMap, h.1], ?_⟩
  intro row hrow
  simp only [matMap, List.mem_map] at hrow
  obtain ⟨arow, ha, rfl⟩ := hrow
  simp [h.2 arow ha]

theorem isMat_zipWith {r c : ℕ} (g : ℚ → ℚ → ℚ) {A B : Matq}
    (hA : isMat r c A) (hB : isMat r c B) :
    isMat r c (List.zipWith (List.zipWith g) A B) := by
  refine ⟨by simp [List.length_zipWith, hA.1, hB.1], ?_⟩
  intro row hrow
  rw [List.mem_iff_getElem] at hrow
  obtain ⟨i, hi, hrow⟩ := hrow
  rw [List.length_zipWith, hA.1, hB.1, min_self] at hi
  have hiA : i < A.length := by rw [hA.1]; exact hi
  have hiB : i < B.length := by rw [hB.1]; exact hi
  rw [List.getElem_zipWith] at hrow
  subst hrow
  rw [List.length_zipWith, hA.2 _ (List.getElem_mem hiA),
    hB.2 _ (List.getElem_mem hiB), min_self]

theorem isMat_matAdd {r c : ℕ} {A B : Matq} (hA : isMat r c A)
    (hB : isMat r c B) : isMat r c (matAdd A B) := isMat_zipWith _ hA hB

theorem isMat_matSub {r c : ℕ} {A B : Matq} (hA : isMat r c A)
    (hB : isMat r c B) : isMat r c (matSub A B) := isMat_zipWith _ hA hB

theorem isMat_matHad {r c : ℕ} {A B : Matq} (hA : isMat r c A)
    (hB : isMat r c B) : isMat r c (matHad A B) := isMat_zipWith _ hA hB

theorem isMat_matScale {r c : ℕ} {A : Matq} (s : ℚ) (hA : isMat r c A) :
    isMat r c (matScale A s) := isMat_matMap _ hA

theorem isMat_matAddScalar {r c : ℕ} {A : Matq} (s : ℚ) (hA : isMat r c A) :
    isMat r c (matAddScalar A s) := isMat_matMap _ hA

theorem isMat_addRowVec {r c : ℕ} {A : Matq} {b : Vecq} (hA : isMat r c A)
    (hb : b.length = c) : isMat r c (addRowVec A b) := by
  refine ⟨by simp [addRowVec, hA.1], ?_⟩
  intro row hrow
  simp only [addRowVec, List.mem_map] at hrow
  obtain ⟨arow, ha, rfl⟩ := hrow
  simp [List.length_zipWith, hA.2 arow ha, hb]

theorem isMat_asCol (v : Vecq) : isMat v.length 1 (asCol v) := by
  refine ⟨by simp [asCol], ?_⟩
  intro row hrow
  simp only [asCol, List.mem_map] at hrow
  obtain ⟨x, _, rfl⟩ := hrow
  rfl

theorem isMat_zerosM (r c : ℕ) : isMat r c (zerosM r c) := by
  refine ⟨by simp [zerosM], ?_⟩
  intro row hrow
  rw [List.eq_of_mem_replicate hrow]
  simp

theorem length_vecSub (u v : Vecq) :
    (vecSub u v).length = min u.length v.length := by
  simp [vecSub]

theorem length_vecAdd (u v : Vecq) :
    (vecAdd u v).length = min u.length v.length := by
  simp [vecAdd]

theorem length_vecScale (u : Vecq) (c : ℚ) : (vecScale u c).length = u.length := by
  simp [vecScale]

theorem length_matVec (A : Matq) (v : Vecq) : (matVec A v).length = A.length := by
  simp [matVec]

theorem length_meanAxis0 (A : Matq) : (meanAxis0 A).length = ncols A := by
  simp [meanAxis0, length_transposeM]

theorem colMeans_eq_meanAxis0 (A : Matq) : colMeans A = meanAxis0 A := by
  simp only [colMeans, meanAxis0, transposeM, List.map_map]
  refine List.map_congr_left ?_
  intro j _
  simp

theorem matEntryCount_eq {c : ℕ} : ∀ {A : Matq},
    (∀ row ∈ A, row.length = c) → matEntryCount A = A.length * c := by
  intro A
  induction A with
  | nil => intro _; simp [matEntryCount]
  | cons a as ih =>
    intro h
    have ha := h a (List.mem_cons_self a as)
    have htail := ih (fun row hr => h row (List.mem_cons_of_mem _ hr))
    simp only [matEntryCount, List.map_cons, List.sum_cons] at *
    rw [ha, htail]
    simp [List.length_cons]
    ring

/-- Shapes produced by `NeuralNetwork::forward` on well-formed inputs. -/
theorem nn_forward_shapes (e : ℚ → ℚ) {n f h : ℕ} {m : NeuralNetwork}
    {X : Matq} (hX : isMat n f X) (hw1 : isMat f h m.w1)
    (hb1 : m.b1.length = h) (hw2 : isMat h 1 m.w2) (hf : 0 < f) (hh : 0 < h) :
    isMat n h (NeuralNetwork.forward e m X).1 ∧
    isMat n 1 (NeuralNetwork.forward e m X).2.2 := by
  have hz1 : isMat n h (addRowVec (matMul X m.w1) m.b1) :=
    isMat_addRowVec (isMat_matMul hX hw1 hf) hb1
  have ha1 : isMat n h (NeuralNetwork.relu (addRowVec (matMul X m.w1) m.b1)) :=
    isMat_matMap _ hz1
  exact ⟨ha1, isMat_matMap _ (isMat_matAddScalar _ (isMat_matMul ha1 hw2 hh))⟩

/-- One feedforward gradient step preserves all parameter shapes. -/
theorem nn_fitStep_shapes (e : ℚ → ℚ) {n f h : ℕ} {m : NeuralNetwork}
    {X : Matq} {y : Vecq} (hX : isMat n f X) (hy : y.length = n)
    (hw1 : isMat f h m.w1) (hb1 : m.b1.length = h) (hw2 : isMat h 1 m.w2)
    (hn : 0 < n) (hf : 0 < f) (hh : 0 < h) :
    isMat f h (NeuralNetwork.fitStep e m X y).w1 ∧
    (NeuralNetwork.fitStep e m X y).b1.length = h ∧
    isMat h 1 (NeuralNetwork.fitStep e m X y).w2 := by
  obtain ⟨ha1, ha2⟩ := nn_forward_shapes e hX hw1 hb1 hw2 hf hh
  have hycol : isMat n 1 (asCol y) := hy ▸ isMat_asCol y
  have hdz2 : isMat n 1 (matSub (NeuralNetwork.forward e m X).2.2 (asCol y)) :=
    isMat_matSub ha2 hycol
  have hz1 : isMat n h (addRowVec (matMul X m.w1) m.b1) :=
    isMat_addRowVec (isMat_matMul hX hw1 hf) hb1
  have hdz1 : isMat n h
      (matHad (matMul (matSub (NeuralNetwork.forward e m X).2.2 (asCol y))
        (transposeM m.w2))
        (NeuralNetwork.relu_derivative (addRowVec (matMul X m.w1) m.b1))) :=
    isMat_matHad (isMat_matMul hdz2 (isMat_transposeM hw2 hh) Nat.one_pos)
      (isMat_matMap _ hz1)
  refine ⟨?_, ?_, ?_⟩
  · exact isMat_matSub hw1 (isMat_matScale _ (isMat_matMap _
      (isMat_matMul (isMat_transposeM hX hn) hdz1 hn)))
  · show (vecSub m.b1 (vecScale (meanAxis0 _) m.lr)).length = h
    rw [length_vecSub, length_vecScale, length_meanAxis0,
      ncols_of_isMat hdz1 hn, hb1, min_self]
  · exact isMat_matSub hw2 (isMat_matScale _ (isMat_matMap _
      (isMat_matMul (isMat_transposeM ha1 hn) hdz2 hn)))

/-- The feedforward epoch loop preserves all parameter shapes. -/
theorem nn_fitLoop_shapes (e : ℚ → ℚ) {n f h : ℕ} {X : Matq} {y : Vecq}
    (hX : isMat n f X) (hy : y.length = n) (hn : 0 < n) (hf : 0 < f)
    (hh : 0 < h) : ∀ (k : ℕ) (m : NeuralNetwork),
    isMat f h m.w1 → m.b1.length = h → isMat h 1 m.w2 →
    isMat f h (NeuralNetwork.fitLoop e m X y k).w1 ∧
    (NeuralNetwork.fitLoop e m X y k).b1.length = h ∧
    isMat h 1 (NeuralNetwork.fitLoop e m X y k).w2 := by
  intro k
  induction k with
  | zero => intro m h1 h2 h3; exact ⟨h1, h2, h3⟩
  | succ k ih =>
    intro m h1 h2 h3
    obtain ⟨s1, s2, s3⟩ := nn_fitStep_shapes e hX hy h1 h2 h3 hn hf hh
    exact ih _ s1 s2 s3

/-- One logistic-regression gradient step preserves the weight count. -/
theorem lr_fitStep_weights_len (e : ℚ → ℚ) {n f : ℕ}
    {m : LogisticRegression} {X : Matq} {y : Vecq} (hX : isMat n f X)
    (hw : m.weights.length = f) (hn : 0 < n) :
    (LogisticRegression.fitStep e m X y).weights.length = f := by
  simp only [LogisticRegression.fitStep]
  rw [length_vecSub, length_vecScale, length_vecAdd]
  simp only [List.length_map, length_matVec, length_transposeM, vecScale,
    ncols_of_isMat hX hn, hw]
  simp

/-- The logistic-regression epoch loop preserves the weight count. -/
theorem lr_fitLoop_weights_len (e : ℚ → ℚ) {n f : ℕ} {X : Matq} {y : Vecq}
    (hX : isMat n f X) (hn : 0 < n) : ∀ (k : ℕ) (m : LogisticRegression),
    m.weights.length = f →
    (LogisticRegression.fitLoop e m X y k).weights.length = f := by
  intro k
  induction k with
  | zero => intro m hw; exact hw
  | succ k ih => intro m hw; exact ih _ (lr_fitStep_weights_len e hX hw hn)

/-- C9: parameter tensor shapes are fixed at construction and preserved by
every `fit` call, for the logistic regression (weight-vector length) and the
feedforward network (`W1 : f×h`, `b1 : h`, `W2 : h×1`), over any number of
epochs. -/
theorem c9_shapes_preserved :
    (∀ (e : ℚ → ℚ) (m : LogisticRegression) (X : Matq) (y : Vecq) (n f : ℕ),
      isMat n f X → 0 < n → m.weights.length = f →
      (LogisticRegression.fit e m X y).weights.length = f) ∧
    (∀ (e : ℚ → ℚ) (m : NeuralNetwork) (X : Matq) (y : Vecq) (n f h : ℕ),
      isMat n f X → y.length = n → 0 < n → 0 < f → 0 < h →
      isMat f h m.w1 → m.b1.length = h → isMat h 1 m.w2 →
      isMat f h (NeuralNetwork.fit e m X y).w1 ∧
      (NeuralNetwork.fit e m X y).b1.length = h ∧
      isMat h 1 (NeuralNetwork.fit e m X y).w2) := by
  constructor
  · intro e m X y n f hX hn hw
    exact lr_fitLoop_weights_len e hX hn m.epochs m hw
  · intro e m X y n f h hX hy hn hf hh h1 h2 h3
    exact nn_fitLoop_shapes e hX hy hn hf hh m.epochs m h1 h2 h3

/-- C9 witness: concrete 1×1 instances. -/
theorem c9_witness :
    isMat 1 1 [[(1 : ℚ)]] ∧
    (LogisticRegression.fit idq logreg0 [[1]] [0]).weights.length = 1 ∧
    isMat 1 1 (NeuralNetwork.fit idq nn0 [[1]] [0]).w1 := by
  have h1 : isMat 1 1 ([[(1 : ℚ)]] : Matq) :=
    ⟨rfl, by intro row hr; rw [List.mem_singleton] at hr; rw [hr]; rfl⟩
  refine ⟨h1, ?_, ?_⟩
  · exact c9_shapes_preserved.1 idq logreg0 [[1]] [0] 1 1 h1 Nat.one_pos rfl
  · refine (c9_shapes_preserved.2 idq nn0 [[1]] [0] 1 1 1 h1 rfl Nat.one_pos
      Nat.one_pos Nat.one_pos ?_ rfl ?_).1 <;>
      exact ⟨rfl, by intro row hr; simp only [show nn0.w1 = [[1]] from rfl, show nn0.w2 = [[1]] from rfl, List.mem_singleton] at hr; rw [hr]; rfl⟩

/-- The mean over all entries of an `n × 1` matrix is its total sum over `n`. -/
theorem matMean_of_isMat {n : ℕ} {A : Matq} (h : isMat n 1 A) :
    matMean A = matSum A / (n : ℚ) := by
  rw [matMean, matEntryCount_eq h.2, h.1, mul_one]

/-- On well-formed inputs, one epoch of `NeuralNetwork::fit` computes exactly
the spec's gradient formulas. -/
theorem nn_step_eq_spec (e : ℚ → ℚ) {n f h : ℕ} {m : NeuralNetwork} {X : Matq}
    {y : Vecq} (hX : isMat n f X) (hy : y.length = n)
    (hw1 : isMat f h m.w1) (hb1 : m.b1.length = h) (hw2 : isMat h 1 m.w2)
    (hf : 0 < f) (hh : 0 < h) :
    NeuralNetwork.fitStep e m X y = NeuralNetwork.specStep e m X y := by
  obtain ⟨ha1, ha2⟩ := nn_forward_shapes e hX hw1 hb1 hw2 hf hh
  have hycol : isMat n 1 (asCol y) := hy ▸ isMat_asCol y
  have hdz2 : isMat n 1 (matSub (matMap (specStableSigmoid e)
      (matAddScalar (matMul (matMap NeuralNetwork.reluScalar
        (addRowVec (matMul X m.w1) m.b1)) m.w2) m.b2)) (asCol y)) :=
    isMat_matSub ha2 hycol
  simp only [NeuralNetwork.fitStep, NeuralNetwork.specStep]
  congr 1
  · rw [colMeans_eq_meanAxis0]; exact rfl
  · rw [matMean_of_isMat hdz2, hX.1]; exact rfl

/-- The epoch loop of `NeuralNetwork::fit` is the iteration of the spec-side
step. -/
theorem nn_fitLoop_eq_specIter (e : ℚ → ℚ) {n f h : ℕ} {X : Matq} {y : Vecq}
    (hX : isMat n f X) (hy : y.length = n) (hn : 0 < n) (hf : 0 < f)
    (hh : 0 < h) : ∀ (k : ℕ) (m : NeuralNetwork),
    isMat f h m.w1 → m.b1.length = h → isMat h 1 m.w2 →
    NeuralNetwork.fitLoop e m X y k =
      (fun mm => NeuralNetwork.specStep e mm X y)^[k] m := by
  intro k
  induction k with
  | zero => intro m _ _ _; rfl
  | succ k ih =>
    intro m h1 h2 h3
    obtain ⟨s1, s2, s3⟩ := nn_fitStep_shapes e hX hy h1 h2 h3 hn hf hh
    show NeuralNetwork.fitLoop e (NeuralNetwork.fitStep e m X y) X y k = _
    rw [Function.iterate_succ_apply,
      ← nn_step_eq_spec e hX hy h1 h2 h3 hf hh]
    exact ih _ s1 s2 s3

/-- C2: for well-formed `X : n×f` and `y` of length `n`, `NeuralNetwork::fit`
performs exactly `epoch_count` iterations of the spec's full-batch step —
forward pass, `dz2 = a2 − y`, `dW2 = a1ᵗ·dz2/n`, `db2 = mean(dz2)`,
`da1 = dz2·W2ᵗ`, `dz1` gated by the ReLU derivative of `z1`,
`dW1 = Xᵗ·dz1/n`, `db1` the column-wise mean of `dz1`, and
`param -= learning_rate * grad` for every parameter. -/
theorem c2_fit_is_spec_iteration :
    ∀ (e : ℚ → ℚ) (m : NeuralNetwork) (X : Matq) (y : Vecq) (n f h : ℕ),
      isMat n f X → y.length = n → 0 < n → 0 < f → 0 < h →
      isMat f h m.w1 → m.b1.length = h → isMat h 1 m.w2 →
      NeuralNetwork.fitStep e m X y = NeuralNetwork.specStep e m X y ∧
      NeuralNetwork.fit e m X y = NeuralNetwork.specFit e m X y := by
  intro e m X y n f h hX hy hn hf hh h1 h2 h3
  refine ⟨nn_step_eq_spec e hX hy h1 h2 h3 hf hh, ?_⟩
  exact nn_fitLoop_eq_specIter e hX hy hn hf hh m.epochs m h1 h2 h3

/-- C2 witness: a concrete 1×1 network and 1-sample batch. -/
theorem c2_witness :
    isMat 1 1 [[(1 : ℚ)]] ∧
    NeuralNetwork.fit idq nn0 [[1]] [0] =
      NeuralNetwork.specFit idq nn0 [[1]] [0] := by
  have h1 : isMat 1 1 ([[(1 : ℚ)]] : Matq) :=
    ⟨rfl, by intro row hr; rw [List.mem_singleton] at hr; rw [hr]; rfl⟩
  refine ⟨h1, ?_⟩
  refine (c2_fit_is_spec_iteration idq nn0 [[1]] [0] 1 1 1 h1 rfl Nat.one_pos
    Nat.one_pos Nat.one_pos ?_ rfl ?_).2 <;>
    exact ⟨rfl, by
      intro row hr
      simp only [show nn0.w1 = [[1]] from rfl, show nn0.w2 = [[1]] from rfl,
        List.mem_singleton] at hr
      rw [hr]; rfl⟩

/-- One RNN gradient step never touches `w_xh`, `w_hh` or `b_h`. -/
theorem rnn_fitStep_frame (e th : ℚ → ℚ) {m m2 : RNN} {X : Matq} {yCol : Matq}
    (hstep : RNN.fitStep e th m X yCol = some m2) :
    m2.w_xh = m.w_xh ∧ m2.w_hh = m.w_hh ∧ m2.b_h = m.b_h := by
  simp only [RNN.fitStep] at hstep
  cases hl : (RNN.forward e th m X).1.getLast? with
  | none => rw [hl] at hstep; exact absurd hstep (by simp)
  | some hLast =>
    rw [hl] at hstep
    simp only [Option.some.injEq] at hstep
    rw [← hstep]
    exact ⟨rfl, rfl, rfl⟩

/-- The RNN epoch loop never touches `w_xh`, `w_hh` or `b_h`. -/
theorem rnn_fitLoop_frame (e th : ℚ → ℚ) (X : Matq) (yCol : Matq) :
    ∀ (k : ℕ) (m m2 : RNN), RNN.fitLoop e th X yCol m k = some m2 →
    m2.w_xh = m.w_xh ∧ m2.w_hh = m.w_hh ∧ m2.b_h = m.b_h := by
  intro k
  induction k with
  | zero =>
    intro m m2 hloop
    simp only [RNN.fitLoop, Option.some.injEq] at hloop
    rw [← hloop]
    exact ⟨rfl, rfl, rfl⟩
  | succ k ih =>
    intro m m2 hloop
    unfold RNN.fitLoop at hloop
    cases hs : RNN.fitStep e th m X yCol with
    | none => rw [hs] at hloop; exact absurd hloop (by simp)
    | some mm =>
      rw [hs] at hloop
      obtain ⟨h1, h2, h3⟩ := ih mm m2 hloop
      obtain ⟨g1, g2, g3⟩ := rnn_fitStep_frame e th hs
      exact ⟨h1.trans g1, h2.trans g2, h3.trans g3⟩

/-- One GRU output-only step never touches a gate parameter. -/
theorem gru_fitStep_frame (e th : ℚ → ℚ) (m : GRU) (X : Tensor3) (y : Vecq) :
    (GRU.fitStep e th m X y).w_z = m.w_z ∧
    (GRU.fitStep e th m X y).u_z = m.u_z ∧
    (GRU.fitStep e th m X y).b_z = m.b_z ∧
    (GRU.fitStep e th m X y).w_r = m.w_r ∧
    (GRU.fitStep e th m X y).u_r = m.u_r ∧
    (GRU.fitStep e th m X y).b_r = m.b_r ∧
    (GRU.fitStep e th m X y).w_h = m.w_h ∧
    (GRU.fitStep e th m X y).u_h = m.u_h ∧
    (GRU.fitStep e th m X y).b_h = m.b_h :=
  ⟨rfl, rfl, rfl, rfl, rfl, rfl, rfl, rfl, rfl⟩

/-- Model of `GRU::fit_output_only` never touches a gate parameter. -/
theorem gru_fitLoop_frame (e th : ℚ → ℚ) (X : Tensor3) (y : Vecq) :
    ∀ (k : ℕ) (m : GRU),
    (GRU.fit_output_only e th X y m k).w_z = m.w_z ∧
    (GRU.fit_output_only e th X y m k).u_z = m.u_z ∧
    (GRU.fit_output_only e th X y m k).b_z = m.b_z ∧
    (GRU.fit_output_only e th X y m k).w_r = m.w_r ∧
    (GRU.fit_output_only e th X y m k).u_r = m.u_r ∧
    (GRU.fit_output_only e th X y m k).b_r = m.b_r ∧
    (GRU.fit_output_only e th X y m k).w_h = m.w_h ∧
    (GRU.fit_output_only e th X y m k).u_h = m.u_h ∧
    (GRU.fit_output_only e th X y m k).b_h = m.b_h := by
  intro k
  induction k with
  | zero => intro m; exact ⟨rfl, rfl, rfl, rfl, rfl, rfl, rfl, rfl, rfl⟩
  | succ k ih => intro m; exact ih (GRU.fitStep e th m X y)

/-- One LSTM output-only step never touches a gate parameter. -/
theorem lstm_fitStep_frame (e th : ℚ → ℚ) (m : LSTM) (X : Tensor3) (y : Vecq) :
    (LSTM.fitStep e th m X y).w_i = m.w_i ∧
    (LSTM.fitStep e th m X y).u_i = m.u_i ∧
    (LSTM.fitStep e th m X y).b_i = m.b_i ∧
    (LSTM.fitStep e th m X y).w_f = m.w_f ∧
    (LSTM.fitStep e th m X y).u_f = m.u_f ∧
    (LSTM.fitStep e th m X y).b_f = m.b_f ∧
    (LSTM.fitStep e th m X y).w_o = m.w_o ∧
    (LSTM.fitStep e th m X y).u_o = m.u_o ∧
    (LSTM.fitStep e th m X y).b_o = m.b_o ∧
    (LSTM.fitStep e th m X y).w_g = m.w_g ∧
    (LSTM.fitStep e th m X y).u_g = m.u_g ∧
    (LSTM.fitStep e th m X y).b_g = m.b_g :=
  ⟨rfl, rfl, rfl, rfl, rfl, rfl, rfl, rfl, rfl, rfl, rfl, rfl⟩

/-- Model of `LSTM::fit_output_only` never touches a gate parameter. -/
theorem lstm_fitLoop_frame (e th : ℚ → ℚ) (X : Tensor3) (y : Vecq) :
    ∀ (k : ℕ) (m : LSTM),
    (LSTM.fit_output_only e th X y m k).w_i = m.w_i ∧
    (LSTM.fit_output_only e th X y m k).u_i = m.u_i ∧
    (LSTM.fit_output_only e th X y m k).b_i = m.b_i ∧
    (LSTM.fit_output_only e th X y m k).w_f = m.w_f ∧
    (LSTM.fit_output_only e th X y m k).u_f = m.u_f ∧
    (LSTM.fit_output_only e th X y m k).b_f = m.b_f ∧
    (LSTM.fit_output_only e th X y m k).w_o = m.w_o ∧
    (LSTM.fit_output_only e th X y m k).u_o = m.u_o ∧
    (LSTM.fit_output_only e th X y m k).b_o = m.b_o ∧
    (LSTM.fit_output_only e th X y m k).w_g = m.w_g ∧
    (LSTM.fit_output_only e th X y m k).u_g = m.u_g ∧
    (LSTM.fit_output_only e th X y m k).b_g = m.b_g := by
  intro k
  induction k with
  | zero =>
    intro m
    exact ⟨rfl, rfl, rfl, rfl, rfl, rfl, rfl, rfl, rfl, rfl, rfl, rfl⟩
  | succ k ih => intro m; exact ih (LSTM.fitStep e th m X y)

/-- C1: in all three recurrent engines, training modifies only the readout
parameters: whenever `RNN::fit` returns (does not panic), `w_xh`, `w_hh` and
`b_h` still hold their initial values, and after any number of
`fit_output_only` epochs every GRU and LSTM gate weight and gate bias still
holds its initial value. -/
theorem c1_only_readout_updated :
    (∀ (e th : ℚ → ℚ) (m m2 : RNN) (X : Matq) (y : Vecq),
      RNN.fit e th m X y = some m2 →
      m2.w_xh = m.w_xh ∧ m2.w_hh = m.w_hh ∧ m2.b_h = m.b_h) ∧
    (∀ (e th : ℚ → ℚ) (m : GRU) (X : Tensor3) (y : Vecq) (k : ℕ),
      (GRU.fit_output_only e th X y m k).w_z = m.w_z ∧
      (GRU.fit_output_only e th X y m k).u_z = m.u_z ∧
      (GRU.fit_output_only e th X y m k).b_z = m.b_z ∧
      (GRU.fit_output_only e th X y m k).w_r = m.w_r ∧
      (GRU.fit_output_only e th X y m k).u_r = m.u_r ∧
      (GRU.fit_output_only e th X y m k).b_r = m.b_r ∧
      (GRU.fit_output_only e th X y m k).w_h = m.w_h ∧
      (GRU.fit_output_only e th X y m k).u_h = m.u_h ∧
      (GRU.fit_output_only e th X y m k).b_h = m.b_h) ∧
    (∀ (e th : ℚ → ℚ) (m : LSTM) (X : Tensor3) (y : Vecq) (k : ℕ),
      (LSTM.fit_output_only e th X y m k).w_i = m.w_i ∧
      (LSTM.fit_output_only e th X y m k).u_i = m.u_i ∧
      (LSTM.fit_output_only e th X y m k).b_i = m.b_i ∧
      (LSTM.fit_output_only e th X y m k).w_f = m.w_f ∧
      (LSTM.fit_output_only e th X y m k).u_f = m.u_f ∧
      (LSTM.fit_output_only e th X y m k).b_f = m.b_f ∧
      (LSTM.fit_output_only e th X y m k).w_o = m.w_o ∧
      (LSTM.fit_output_only e th X y m k).u_o = m.u_o ∧
      (LSTM.fit_output_only e th X y m k).b_o = m.b_o ∧
      (LSTM.fit_output_only e th X y m k).w_g = m.w_g ∧
      (LSTM.fit_output_only e th X y m k).u_g = m.u_g ∧
      (LSTM.fit_output_only e th X y m k).b_g = m.b_g) := by
  refine ⟨?_, ?_, ?_⟩
  · intro e th m m2 X y hfit
    exact rnn_fitLoop_frame e th X (asCol y) m.epochs m m2 hfit
  · intro e th m X y k
    exact gru_fitLoop_frame e th X y k m
  · intro e th m X y k
    exact lstm_fitLoop_frame e th X y k m

/-- C1 witness: a concrete RNN training run that returns, with the recurrent
parameters unchanged. -/
theorem c1_witness :
    RNN.fit idq idq rnn0 [[1]] [0] = some rnn0 ∧
    rnn0.w_xh = rnn0.w_xh ∧ rnn0.w_hh = rnn0.w_hh ∧ rnn0.b_h = rnn0.b_h := by
  have hfit : RNN.fit idq idq rnn0 [[1]] [0] = some rnn0 := by
    simp [RNN.fit, RNN.fitLoop, RNN.fitStep, RNN.forward, RNN.run, rnn0, idq,
      ncols, matMul, transposeM, dotv, matMap, matAdd, matSub, matScale,
      matSum, addRowVec, matAddScalar, asCol, zerosM, RNN.sigmoidScalar,
      List.range_succ, List.range_zero, Function.comp,
      List.getElem?_cons_zero, Option.getD_some]
  exact ⟨hfit, c1_only_readout_updated.1 idq idq rnn0 rnn0 [[1]] [0] hfit⟩

/-- The RNN timestep loop pushes exactly one hidden state per iteration. -/
theorem rnn_run_hs_length (e th : ℚ → ℚ) (m : RNN) (X : Matq) :
    ∀ (k t : ℕ) (hPrev : Matq), (RNN.run e th m X hPrev t k).1.length = k := by
  intro k
  induction k with
  | zero => intro t hPrev; rfl
  | succ k ih =>
    intro t hPrev
    simp only [RNN.run, List.length_cons]
    rw [ih]

/-- Model of `RNN::forward` produces one hidden state per column of `X`. -/
theorem rnn_forward_hs_length (e th : ℚ → ℚ) (m : RNN) (X : Matq) :
    (RNN.forward e th m X).1.length = ncols X := by
  simp only [RNN.forward]
  exact rnn_run_hs_length e th m X (ncols X) 0 _

/-- With at least one column, the RNN gradient step's `unwrap` succeeds. -/
theorem rnn_fitStep_isSome (e th : ℚ → ℚ) (m : RNN) (X : Matq) (yCol : Matq)
    (h : 0 < ncols X) : (RNN.fitStep e th m X yCol).isSome = true := by
  simp only [RNN.fitStep]
  cases hl : (RNN.forward e th m X).1.getLast? with
  | none =>
    rw [List.getLast?_eq_none_iff] at hl
    have hlen := rnn_forward_hs_length e th m X
    rw [hl] at hlen
    simp at hlen
    omega
  | some hLast => simp [hl]

/-- With zero columns, the RNN gradient step hits the `unwrap` of an empty
hidden-state list. -/
theorem rnn_fitStep_none (e th : ℚ → ℚ) (m : RNN) (X : Matq) (yCol : Matq)
    (h : ncols X = 0) : RNN.fitStep e th m X yCol = none := by
  simp only [RNN.fitStep]
  have hlen := rnn_forward_hs_length e th m X
  rw [h, List.length_eq_zero] at hlen
  rw [hlen]
  rfl

/-- With at least one column, the whole RNN epoch loop returns. -/
theorem rnn_fitLoop_isSome (e th : ℚ → ℚ) (X : Matq) (yCol : Matq)
    (h : 0 < ncols X) : ∀ (k : ℕ) (m : RNN),
    (RNN.fitLoop e th X yCol m k).isSome = true := by
  intro k
  induction k with
  | zero => intro m; rfl
  | succ k ih =>
    intro m
    unfold RNN.fitLoop
    cases hs : RNN.fitStep e th m X yCol with
    | none =>
      have hh := rnn_fitStep_isSome e th m X yCol h
      rw [hs] at hh
      exact absurd hh (by simp)
    | some mm => exact ih mm

/-- C10 counterexample: with a zero-column input but a zero epoch count,
`RNN::fit` returns without panicking (the loop body containing the `unwrap`
never runs), contradicting the claim that `fit` panics for every zero-column
`X`. -/
theorem c10_counterexample :
    ncols [([] : List ℚ)] = 0 ∧
    RNN.fit idq idq rnnZeroEpochs [[]] [0] = some rnnZeroEpochs :=
  ⟨rfl, rfl⟩

/-- C10 amended: `RNN::forward` produces exactly one hidden state per column
of `X`; for every `X` with at least one column `fit`'s unwrap succeeds (the
error branch is unreachable), and for a zero-column `X` `fit` panics provided
at least one training epoch runs. -/
theorem c10_amended_unwrap :
    (∀ (e th : ℚ → ℚ) (m : RNN) (X : Matq),
      (RNN.forward e th m X).1.length = ncols X) ∧
    (∀ (e th : ℚ → ℚ) (m : RNN) (X : Matq) (y : Vecq),
      0 < ncols X → (RNN.fit e th m X y).isSome = true) ∧
    (∀ (e th : ℚ → ℚ) (m : RNN) (X : Matq) (y : Vecq),
      ncols X = 0 → 0 < m.epochs → RNN.fit e th m X y = none) := by
  refine ⟨rnn_forward_hs_length, ?_, ?_⟩
  · intro e th m X y h
    exact rnn_fitLoop_isSome e th X (asCol y) h m.epochs m
  · intro e th m X y h hep
    obtain ⟨k, hk⟩ : ∃ k, m.epochs = k + 1 := ⟨m.epochs - 1, by omega⟩
    simp only [RNN.fit, hk]
    unfold RNN.fitLoop
    rw [rnn_fitStep_none e th m X (asCol y) h]

/-- C10 witness: concrete inputs with one column (fit returns) and with zero
columns and one epoch (fit panics). -/
theorem c10_witness :
    0 < ncols [[(1 : ℚ)]] ∧
    (RNN.fit idq idq rnn0 [[1]] [0]).isSome = true ∧
    ncols [([] : List ℚ)] = 0 ∧ 0 < rnn0.epochs ∧
    RNN.fit idq idq rnn0 [[]] [0] = none := by
  refine ⟨by decide, ?_, rfl, by decide, ?_⟩
  · exact c10_amended_unwrap.2.1 idq idq rnn0 [[1]] [0] (by decide)
  · exact c10_amended_unwrap.2.2 idq idq rnn0 [[]] [0] rfl (by decide)

/-- C6: for a series of length 500 with `seq_len = 24`, `make_dataset`
produces exactly 476 samples — one per index `i < 476`, `X[i]` holding the 24
values `series[i..i+24)` and `y[i]` the value `series[i+24]`, each z-scored by
the global mean and divisor — and the chronological split sizes are
`n_test = ⌈476·0.1⌉ = 48` and `n_train = 428`. -/
theorem c6_windowing_500_24 : ∀ series : List ℚ, series.length = 500 →
    (make_dataset series 24).1.length = 476 ∧
    (make_dataset series 24).2.length = 476 ∧
    (∀ i, i < 476 →
      ((make_dataset series 24).1.getD i []).length = 24 ∧
      (∀ t, t < 24 → ((make_dataset series 24).1.getD i []).getD t [] =
        [(series.getD (i + t) 0 - dsMean series 24) / dsDivisor series 24]) ∧
      (make_dataset series 24).2.getD i 0 =
        (series.getD (i + 24) 0 - dsMean series 24) / dsDivisor series 24) ∧
    nTestOf 476 = 48 ∧ nTrainOf 476 = 428 := by
  intro series h500
  have hceil : nTestOf 476 = 48 := by
    have hc : ⌈((476 : ℕ) : ℚ) * 0.1⌉ = (48 : ℤ) := by
      rw [Int.ceil_eq_iff]
      norm_num
    rw [nTestOf, hc]
    rfl
  refine ⟨?_, ?_, ?_, hceil, ?_⟩
  · show ((windowsX series 24).map _).length = 476
    rw [List.length_map, windowsX, List.length_map, List.length_range, h500]
  · show ((windowsY series 24).map _).length = 476
    rw [List.length_map, windowsY, List.length_map, List.length_range, h500]
  · intro i hi
    have hX : (make_dataset series 24).1.getD i [] =
        List.map (List.map (fun v =>
          (v - dsMean series 24) / dsDivisor series 24))
          ((List.range 24).map (fun t => [series.getD (i + t) 0])) := by
      simp only [make_dataset]
      rw [List.getD_eq_getElem?_getD, List.getElem?_map]
      rw [windowsX, List.getElem?_map,
        List.getElem?_range (by omega : i < series.length - 24)]
      simp
    refine ⟨by rw [hX]; simp, ?_, ?_⟩
    · intro t ht
      rw [hX]
      rw [List.getD_eq_getElem?_getD, List.getElem?_map, List.getElem?_map,
        List.getElem?_range ht]
      simp
    · simp only [make_dataset]
      rw [List.getD_eq_getElem?_getD, List.getElem?_map]
      rw [windowsY, List.getElem?_map,
        List.getElem?_range (by omega : i < series.length - 24)]
      simp
  · rw [nTrainOf, hceil]

/-- C6 witness: the all-zero series of length 500. -/
theorem c6_witness :
    (List.replicate 500 (0 : ℚ)).length = 500 ∧
    (make_dataset (List.replicate 500 (0 : ℚ)) 24).1.length = 476 ∧
    (make_dataset (List.replicate 500 (0 : ℚ)) 24).2.length = 476 ∧
    nTestOf 476 = 48 ∧ nTrainOf 476 = 428 := by
  have h := c6_windowing_500_24 (List.replicate 500 0)
    (by rw [List.length_replicate])
  exact ⟨by rw [List.length_replicate], h.1, h.2.1, h.2.2.2.1, h.2.2.2.2⟩
